import Mathlib

/-!
Verification of the reservation/authorization workflow of the pharmacy
marketplace backend (`Backend/controllers/reservationController.js`,
`Backend/controllers/pharmacyController.js`, `Backend/models/*.js`,
`Backend/routes/reservations.js`).

The controllers are embedded shallowly: Mongo ObjectIds become `Nat`,
documents become structures, the database becomes a `Store` of lists, and
each controller becomes a pure function from a principal, its arguments and
the store to a response paired with the resulting store.  Error responses
are modelled after the source's `res.status(...).json({message})` calls:
the constructor records the HTTP status class and the exact message string.
Timestamps (`createdAt`/`updatedAt`) and presentation-only fields are not
modelled; `populate` calls only shape the JSON payload and are dropped.
-/

/-- An authenticated principal as delivered by the auth middleware:
`req.user._id` and `req.user.role`.  The controllers compare `role`
against the string literals "consumer" and "pharmacy", so the role is kept
as a string here. -/
structure Principal where
  id : Nat
  role : String
deriving DecidableEq

/-- A document of the `Pharmacy` model (`Backend/models/Pharmacy.js`):
`user` is the owning user's id, `license` is globally unique, `verified`
defaults to false. -/
structure PharmacyDoc where
  id : Nat
  name : String
  location : String
  license : String
  contact : String
  verified : Bool
  user : Nat
deriving DecidableEq

/-- A document of the `Medicine` model (`Backend/models/Medicine.js`):
`pharmacy` is the owning pharmacy's id, `availability` defaults to true. -/
structure MedicineDoc where
  id : Nat
  name : String
  strength : String
  availability : Bool
  pharmacy : Nat
deriving DecidableEq

/-- A document of the `Reservation` model (`Backend/models/Reservation.js`):
`user` is the requesting consumer, `medicine` the reserved medicine,
`pharmacy` the servicing pharmacy copied from the medicine at creation,
`status` one of "pending" | "confirmed" | "cancelled" (schema enum). -/
structure ReservationDoc where
  id : Nat
  user : Nat
  medicine : Nat
  pharmacy : Nat
  status : String
deriving DecidableEq

/-- The database: one collection per model. -/
structure Store where
  pharmacies : List PharmacyDoc
  medicines : List MedicineDoc
  reservations : List ReservationDoc
deriving DecidableEq

/-- `Medicine.findById(id)`. -/
def findMedicineById (s : Store) (mid : Nat) : Option MedicineDoc :=
  s.medicines.find? (fun m => m.id == mid)

/-- `Pharmacy.findOne({ user: uid })`. -/
def findPharmacyByUser (s : Store) (uid : Nat) : Option PharmacyDoc :=
  s.pharmacies.find? (fun ph => ph.user == uid)

/-- `Reservation.findById(id)`. -/
def findReservationById (s : Store) (rid : Nat) : Option ReservationDoc :=
  s.reservations.find? (fun r => r.id == rid)

/-- `Reservation.findOne({ user: uid, medicine: mid, status: "pending" })`. -/
def findPendingReservation (s : Store) (uid : Nat) (mid : Nat) :
    Option ReservationDoc :=
  s.reservations.find?
    (fun r => r.user == uid && r.medicine == mid && r.status == "pending")

/-- An error response of a controller.  `notFound` is a
`res.status(404)`, `forbidden` a `res.status(403)` and `badRequest` a
`res.status(400)`; the string is the `message` field of the JSON body. -/
inductive ApiError where
  | notFound (msg : String)
  | forbidden (msg : String)
  | badRequest (msg : String)
deriving DecidableEq

/-- HTTP status code carried by an error response. -/
def ApiError.statusCode : ApiError → Nat
  | .notFound _ => 404
  | .forbidden _ => 403
  | .badRequest _ => 400

/-- The messages the spec's error taxonomy (§7) classifies as Conflict:
state-dependent precondition failures.  The source reports all of them
with HTTP 400. -/
def conflictMessages : List String :=
  ["Medicine is not available",
   "You already have a pending reservation for this medicine",
   "User already has a pharmacy",
   "License number already exists"]

/-- Whether an error response is a Conflict in the sense of the spec's §7
taxonomy. -/
def ApiError.isConflict : ApiError → Bool
  | .badRequest msg => conflictMessages.contains msg
  | _ => false

/-- Whether an error response is a Forbidden condition: the source
signals those with HTTP 403. -/
def ApiError.isForbidden : ApiError → Bool
  | .forbidden _ => true
  | _ => false

/-- Whether an error response is a NotFound condition (HTTP 404). -/
def ApiError.isNotFound : ApiError → Bool
  | .notFound _ => true
  | _ => false

/-- The statuses accepted by `updateStatusValidation` in
`Backend/routes/reservations.js` (`body('status').isIn([...])`), which also
coincide with the schema enum of `Reservation.status`. -/
def validStatus (st : String) : Prop :=
  st = "pending" ∨ st = "confirmed" ∨ st = "cancelled"

instance (st : String) : Decidable (validStatus st) := by
  unfold validStatus; infer_instance

/-- `createReservation` (`reservationController.js`): look up the medicine
(404 if missing), reject unavailable medicine (400), reject an existing
pending reservation of the same user for the same medicine (400), else
insert a new reservation in state "pending" with the pharmacy copied from
the medicine.  `newId` stands for the ObjectId Mongo mints for the new
document.  The express-validator rule for this route only checks that the
body's `medicine` field is a well-formed ObjectId, which has no content
once ids are `Nat`, so it is not modelled. -/
def createReservation (p : Principal) (medicineId : Nat) (s : Store)
    (newId : Nat) : Except ApiError ReservationDoc × Store :=
  match findMedicineById s medicineId with
  | none => (.error (.notFound "Medicine not found"), s)
  | some medicine =>
    if medicine.availability = false then
      (.error (.badRequest "Medicine is not available"), s)
    else
      match findPendingReservation s p.id medicineId with
      | some _ =>
        (.error
          (.badRequest "You already have a pending reservation for this medicine"),
         s)
      | none =>
        let r : ReservationDoc :=
          { id := newId, user := p.id, medicine := medicineId,
            pharmacy := medicine.pharmacy, status := "pending" }
        (.ok r, { s with reservations := s.reservations ++ [r] })

/-- `Reservation.findByIdAndUpdate(rid, { status }, ...)`: rewrite the
status of the document with id `rid`, leaving every other field and every
other document untouched. -/
def setStatusInStore (s : Store) (rid : Nat) (st : String) : Store :=
  { s with
    reservations :=
      s.reservations.map
        (fun r => if r.id == rid then { r with status := st } else r) }

/-- `updateReservationStatus` (`reservationController.js`).  The leading
conditional embeds the route's `updateStatusValidation` guard (the
controller's `validationResult(req)` check); then: load the reservation
(404 if missing); a consumer may only touch their own reservation (403)
and may only set "cancelled" (400); a pharmacy principal must own the
servicing pharmacy (403, also when they own no pharmacy at all) and may
only set "confirmed" or "cancelled" (400); any other role falls through
with no check.  On success the status is persisted and the updated
document returned. -/
def updateReservationStatus (p : Principal) (rid : Nat) (status : String)
    (s : Store) : Except ApiError ReservationDoc × Store :=
  if ¬ validStatus status then
    (.error (.badRequest "Validation failed"), s)
  else
    match findReservationById s rid with
    | none => (.error (.notFound "Reservation not found"), s)
    | some reservation =>
      if p.role = "consumer" then
        if reservation.user ≠ p.id then
          (.error (.forbidden "Not authorized to update this reservation"), s)
        else if status ≠ "cancelled" then
          (.error (.badRequest "Consumers can only cancel reservations"), s)
        else
          (.ok { reservation with status := status },
           setStatusInStore s rid status)
      else if p.role = "pharmacy" then
        match findPharmacyByUser s p.id with
        | none =>
          (.error (.forbidden "Not authorized to update this reservation"), s)
        | some pharmacy =>
          if reservation.pharmacy ≠ pharmacy.id then
            (.error (.forbidden "Not authorized to update this reservation"), s)
          else if ¬ (status = "confirmed" ∨ status = "cancelled") then
            (.error (.badRequest "Invalid status for pharmacy update"), s)
          else
            (.ok { reservation with status := status },
             setStatusInStore s rid status)
      else
        (.ok { reservation with status := status },
         setStatusInStore s rid status)

/-- `Reservation.findByIdAndDelete(rid)`: remove the document with id
`rid` from the collection. -/
def removeReservation (s : Store) (rid : Nat) : Store :=
  { s with reservations := s.reservations.filter (fun r => r.id ≠ rid) }

/-- `deleteReservation` (`reservationController.js`): load the reservation
(404 if missing); a consumer may only delete their own reservation (403);
a pharmacy principal must own the servicing pharmacy (403, also when they
own no pharmacy); any other role falls through with no check; then hard
delete with no status restriction.  The success payload is the message of
the 200 response. -/
def deleteReservation (p : Principal) (rid : Nat) (s : Store) :
    Except ApiError String × Store :=
  match findReservationById s rid with
  | none => (.error (.notFound "Reservation not found"), s)
  | some reservation =>
    if p.role = "consumer" then
      if reservation.user ≠ p.id then
        (.error (.forbidden "Not authorized to delete this reservation"), s)
      else
        (.ok "Reservation deleted successfully", removeReservation s rid)
    else if p.role = "pharmacy" then
      match findPharmacyByUser s p.id with
      | none =>
        (.error (.forbidden "Not authorized to delete this reservation"), s)
      | some pharmacy =>
        if reservation.pharmacy ≠ pharmacy.id then
          (.error (.forbidden "Not authorized to delete this reservation"), s)
        else
          (.ok "Reservation deleted successfully", removeReservation s rid)
    else
      (.ok "Reservation deleted successfully", removeReservation s rid)

/-- The request body of `createPharmacy`: the validated fields of
`pharmacyValidation`.  The `user` field is not part of the body; the
controller sets it from the principal. -/
structure PharmacyBody where
  name : String
  location : String
  license : String
  contact : String
deriving DecidableEq

/-- `createPharmacy` (`pharmacyController.js`): reject when the user
already owns a pharmacy (400 "User already has a pharmacy"); insert
otherwise, with `user` taken from the principal and `verified` left at its
schema default `false`.  The schema's `unique: true` on `license` makes
Mongo raise error 11000 on a duplicate license, which the controller's
catch block maps to 400 "License number already exists"; that storage
constraint is embedded as the second guard.  `newId` stands for the new
document's ObjectId. -/
def createPharmacy (p : Principal) (body : PharmacyBody) (s : Store)
    (newId : Nat) : Except ApiError PharmacyDoc × Store :=
  match findPharmacyByUser s p.id with
  | some _ => (.error (.badRequest "User already has a pharmacy"), s)
  | none =>
    if s.pharmacies.any (fun ph => ph.license == body.license) then
      (.error (.badRequest "License number already exists"), s)
    else
      let ph : PharmacyDoc :=
        { id := newId, name := body.name, location := body.location,
          license := body.license, contact := body.contact,
          verified := false, user := p.id }
      (.ok ph, { s with pharmacies := s.pharmacies ++ [ph] })

/-- A consumer principal used in concrete scenarios; requester of
`demoRes` and `demoRes2`. -/
def consumerP : Principal := { id := 10, role := "consumer" }

/-- A second consumer, requester of no reservation. -/
def consumer2P : Principal := { id := 15, role := "consumer" }

/-- The owner of `demoPharmacy`. -/
def pharmacyP : Principal := { id := 11, role := "pharmacy" }

/-- An admin principal with no ownership relation to anything. -/
def adminP : Principal := { id := 12, role := "admin" }

/-- A principal whose role matches none of the roles the controllers
special-case. -/
def guestP : Principal := { id := 13, role := "guest" }

/-- A pharmacy-role principal who owns no pharmacy document. -/
def orphanP : Principal := { id := 14, role := "pharmacy" }

/-- The single pharmacy of the demo store, owned by `pharmacyP`. -/
def demoPharmacy : PharmacyDoc :=
  { id := 20, name := "HealthPlus", location := "Nairobi", license := "L-100",
    contact := "0700", verified := true, user := 11 }

/-- An available medicine of `demoPharmacy`, already reserved by
`consumerP` via `demoRes`. -/
def demoMedicine : MedicineDoc :=
  { id := 5, name := "Paracetamol", strength := "500mg", availability := true,
    pharmacy := 20 }

/-- An unavailable medicine of `demoPharmacy`. -/
def demoMedicine2 : MedicineDoc :=
  { id := 6, name := "Ibuprofen", strength := "200mg", availability := false,
    pharmacy := 20 }

/-- An available medicine of `demoPharmacy` with no reservation. -/
def demoMedicine3 : MedicineDoc :=
  { id := 7, name := "Amoxicillin", strength := "250mg", availability := true,
    pharmacy := 20 }

/-- A pending reservation of `consumerP` for `demoMedicine`. -/
def demoRes : ReservationDoc :=
  { id := 1, user := 10, medicine := 5, pharmacy := 20, status := "pending" }

/-- A cancelled reservation of `consumerP` for `demoMedicine2`. -/
def demoRes2 : ReservationDoc :=
  { id := 2, user := 10, medicine := 6, pharmacy := 20, status := "cancelled" }

/-- The concrete store used by the witnesses and counterexamples. -/
def demoStore : Store :=
  { pharmacies := [demoPharmacy],
    medicines := [demoMedicine, demoMedicine2, demoMedicine3],
    reservations := [demoRes, demoRes2] }

/-- A second pharmacy, owned by `orphanP`, servicing no reservation. -/
def demoPharmacy2 : PharmacyDoc :=
  { id := 21, name := "CareChem", location := "Kisumu", license := "L-300",
    contact := "0722", verified := false, user := 14 }

/-- The demo store extended with `demoPharmacy2`, so that `orphanP` owns a
pharmacy different from the one servicing every reservation. -/
def demoStore2 : Store :=
  { demoStore with pharmacies := [demoPharmacy, demoPharmacy2] }

/-- Updating the status of the reservation `rid` rewrites exactly the
document `find?` locates: the lookup on the rewritten collection returns
the same document with only its status changed. -/
theorem find_after_setStatus (rid : Nat) (st : String)
    (l : List ReservationDoc) (r : ReservationDoc)
    (h : l.find? (fun x => x.id == rid) = some r) :
    (l.map fun x => if x.id == rid then { x with status := st } else x).find?
      (fun x => x.id == rid) = some { r with status := st } := by
  induction l with
  | nil => simp at h
  | cons a t ih =>
    by_cases hc : a.id = rid
    · have hb : (a.id == rid) = true := by simpa using hc
      rw [List.find?_cons_of_pos (p := fun x : ReservationDoc => x.id == rid) t hb] at h
      injection h with h
      subst h
      simp only [List.map_cons]
      rw [if_pos hb]
      exact List.find?_cons_of_pos (p := fun x : ReservationDoc => x.id == rid) _ hb
    · have hb : (a.id == rid) = false := by simpa using hc
      rw [List.find?_cons_of_neg (p := fun x : ReservationDoc => x.id == rid) t
        (by simp [hb])] at h
      simp only [List.map_cons]
      rw [if_neg (by simp [hb])]
      rw [List.find?_cons_of_neg (p := fun x : ReservationDoc => x.id == rid) _
        (by simp [hb])]
      exact ih h

/-- Pointwise relation between a list and its image under a map. -/
theorem forall2_map_self {α : Type} (R : α → α → Prop) (f : α → α)
    (h : ∀ a, R a (f a)) : ∀ l : List α, List.Forall₂ R l (l.map f)
  | [] => List.Forall₂.nil
  | a :: t => List.Forall₂.cons (h a) (forall2_map_self R f h t)

/-- Pointwise reflexivity for `Forall₂`. -/
theorem forall2_refl_of {α : Type} (R : α → α → Prop) (h : ∀ a, R a a) :
    ∀ l : List α, List.Forall₂ R l l
  | [] => List.Forall₂.nil
  | a :: t => List.Forall₂.cons (h a) (forall2_refl_of R h t)

/-- The store produced by `updateReservationStatus` is either the input
store (every early-return path) or the input store with exactly the status
of document `rid` rewritten (the three success paths). -/
theorem update_store_cases (p : Principal) (rid : Nat) (st : String)
    (s : Store) :
    (updateReservationStatus p rid st s).2 = s ∨
    (updateReservationStatus p rid st s).2 = setStatusInStore s rid st := by
  unfold updateReservationStatus
  repeat' first
    | exact Or.inl rfl
    | exact Or.inr rfl
    | split

/-- Relation between an old and a new reservation document: every field
except possibly the status of document `rid` is preserved. -/
def statusOnlyChange (rid : Nat) (r0 r1 : ReservationDoc) : Prop :=
  r1.id = r0.id ∧ r1.user = r0.user ∧ r1.medicine = r0.medicine ∧
  r1.pharmacy = r0.pharmacy ∧ (r0.id ≠ rid → r1.status = r0.status)

/-- C1 (amended): for every consumer principal, `updateReservationStatus`
with new status "confirmed" always fails and persists nothing, but the
error kind depends on the requester relation: a consumer who is not the
reservation's requester gets Forbidden (HTTP 403), while the requester
gets the HTTP 400 error "Consumers can only cancel reservations" — not a
Forbidden condition. -/
theorem consumer_confirm_always_fails (p : Principal) (rid : Nat)
    (s : Store) (hrole : p.role = "consumer") :
    (∃ e, (updateReservationStatus p rid "confirmed" s).1 = .error e)
    ∧ (updateReservationStatus p rid "confirmed" s).2 = s
    ∧ (∀ r, findReservationById s rid = some r → r.user ≠ p.id →
        (updateReservationStatus p rid "confirmed" s).1
          = .error (.forbidden "Not authorized to update this reservation"))
    ∧ (∀ r, findReservationById s rid = some r → r.user = p.id →
        (updateReservationStatus p rid "confirmed" s).1
          = .error (.badRequest "Consumers can only cancel reservations")) := by
  have hv : validStatus "confirmed" := Or.inr (Or.inl rfl)
  rcases hfind : findReservationById s rid with _ | r
  · have hres : updateReservationStatus p rid "confirmed" s
        = (.error (.notFound "Reservation not found"), s) := by
      simp [updateReservationStatus, hfind, hv]
    refine ⟨⟨_, by rw [hres]⟩, by rw [hres], fun r hr _ => ?_, fun r hr _ => ?_⟩
    · simp at hr
    · simp at hr
  · by_cases hu : r.user = p.id
    · have hres : updateReservationStatus p rid "confirmed" s
          = (.error (.badRequest "Consumers can only cancel reservations"), s) := by
        simp [updateReservationStatus, hfind, hv, hrole, hu]
      refine ⟨⟨_, by rw [hres]⟩, by rw [hres], fun r2 hr2 hne => ?_,
        fun r2 hr2 _ => by rw [hres]⟩
      injection hr2 with e
      subst e
      exact absurd hu hne
    · have hres : updateReservationStatus p rid "confirmed" s
          = (.error (.forbidden "Not authorized to update this reservation"), s) := by
        simp [updateReservationStatus, hfind, hv, hrole, hu]
      refine ⟨⟨_, by rw [hres]⟩, by rw [hres], fun r2 hr2 _ => by rw [hres],
        fun r2 hr2 he => ?_⟩
      injection hr2 with e
      subst e
      exact absurd he hu

/-- C1 witness: the amended theorem applied to the requester of the demo
reservation. -/
theorem consumer_confirm_always_fails_witness :
    (updateReservationStatus consumerP 1 "confirmed" demoStore).2 = demoStore
    ∧ (updateReservationStatus consumerP 1 "confirmed" demoStore).1
        = .error (.badRequest "Consumers can only cancel reservations") :=
  ⟨(consumer_confirm_always_fails consumerP 1 demoStore rfl).2.1,
   (consumer_confirm_always_fails consumerP 1 demoStore rfl).2.2.2 demoRes rfl rfl⟩

/-- C1 counterexample: a consumer who IS the requester of reservation 1
and asks for "confirmed" is rejected with the HTTP 400 message "Consumers
can only cancel reservations", which is not a Forbidden (403) condition,
refuting "fails with Forbidden regardless of the requester relation". -/
theorem consumer_requester_confirm_gets_bad_request :
    updateReservationStatus consumerP 1 "confirmed" demoStore
      = (.error (.badRequest "Consumers can only cancel reservations"), demoStore)
    ∧ (ApiError.badRequest "Consumers can only cancel reservations").isForbidden
        = false :=
  ⟨rfl, rfl⟩

/-- C2: `createReservation` checks its preconditions in source order with
the first failure winning — a missing medicine gives NotFound regardless
of anything else; an existing but unavailable medicine gives the Conflict
"Medicine is not available" regardless of duplicates; an available
medicine with an existing pending reservation of the same (requester,
medicine) pair gives the Conflict "You already have a pending reservation
for this medicine" — and every failure path returns the store unchanged. -/
theorem createReservation_precondition_order (p : Principal) (mid : Nat)
    (s : Store) (nid : Nat) :
    (findMedicineById s mid = none →
      createReservation p mid s nid
        = (.error (.notFound "Medicine not found"), s))
    ∧ (∀ m : MedicineDoc, findMedicineById s mid = some m →
        m.availability = false →
        createReservation p mid s nid
          = (.error (.badRequest "Medicine is not available"), s)
        ∧ (ApiError.badRequest "Medicine is not available").isConflict = true)
    ∧ (∀ m : MedicineDoc, ∀ r0 : ReservationDoc,
        findMedicineById s mid = some m → m.availability = true →
        findPendingReservation s p.id mid = some r0 →
        createReservation p mid s nid
          = (.error
              (.badRequest "You already have a pending reservation for this medicine"),
             s)
        ∧ (ApiError.badRequest
            "You already have a pending reservation for this medicine").isConflict
            = true) := by
  refine ⟨fun h => ?_, fun m hm hav => ⟨?_, rfl⟩, fun m r0 hm hav hdup => ⟨?_, rfl⟩⟩
  · simp [createReservation, h]
  · simp [createReservation, hm, hav]
  · simp [createReservation, hm, hav, hdup]

/-- C2 witness: the three failure branches exercised on the demo store —
an absent medicine id, the unavailable `demoMedicine2`, and the already
pending-reserved `demoMedicine`. -/
theorem createReservation_precondition_order_witness :
    createReservation consumerP 999 demoStore 99
      = (.error (.notFound "Medicine not found"), demoStore)
    ∧ createReservation consumerP 6 demoStore 99
      = (.error (.badRequest "Medicine is not available"), demoStore)
    ∧ createReservation consumerP 5 demoStore 99
      = (.error
          (.badRequest "You already have a pending reservation for this medicine"),
         demoStore) :=
  ⟨(createReservation_precondition_order consumerP 999 demoStore 99).1 rfl,
   ((createReservation_precondition_order consumerP 6 demoStore 99).2.1
      demoMedicine2 rfl rfl).1,
   ((createReservation_precondition_order consumerP 5 demoStore 99).2.2
      demoMedicine demoRes rfl rfl rfl).1⟩

/-- C3: for a consumer principal, an existing available medicine and no
pending reservation of the same (requester, medicine) pair, creation
succeeds and the new reservation has status "pending", user = the
principal's id, medicine = the given medicine id, and pharmacy copied
from the medicine's owning pharmacy; the new document is appended to the
store. -/
theorem createReservation_success_shape (p : Principal) (mid : Nat)
    (s : Store) (nid : Nat) (m : MedicineDoc)
    (hrole : p.role = "consumer")
    (hm : findMedicineById s mid = some m)
    (hav : m.availability = true)
    (hdup : findPendingReservation s p.id mid = none) :
    createReservation p mid s nid
      = (.ok { id := nid, user := p.id, medicine := mid,
               pharmacy := m.pharmacy, status := "pending" },
         { s with reservations := s.reservations
             ++ [{ id := nid, user := p.id, medicine := mid,
                   pharmacy := m.pharmacy, status := "pending" }] }) := by
  simp [createReservation, hm, hav, hdup]

/-- C3 witness: `consumerP` reserves the available, unreserved
`demoMedicine3`; the result is pending and carries the pharmacy of the
medicine. -/
theorem createReservation_success_shape_witness :
    createReservation consumerP 7 demoStore 99
      = (.ok { id := 99, user := consumerP.id, medicine := 7,
               pharmacy := demoMedicine3.pharmacy, status := "pending" },
         { demoStore with reservations := demoStore.reservations
             ++ [{ id := 99, user := consumerP.id, medicine := 7,
                   pharmacy := demoMedicine3.pharmacy, status := "pending" }] }) :=
  createReservation_success_shape consumerP 7 demoStore 99 demoMedicine3
    rfl rfl rfl rfl

/-- C4: no state-machine guard inspects the current status — a principal
who owns the servicing pharmacy can move a reservation whose status is
"cancelled" (a terminal state) to "confirmed"; the call succeeds and the
new status is persisted in the store. -/
theorem confirm_after_cancelled_succeeds (p : Principal) (rid : Nat)
    (s : Store) (ph : PharmacyDoc) (r : ReservationDoc)
    (hrole : p.role = "pharmacy")
    (hph : findPharmacyByUser s p.id = some ph)
    (hr : findReservationById s rid = some r)
    (hown : r.pharmacy = ph.id)
    (hcur : r.status = "cancelled") :
    updateReservationStatus p rid "confirmed" s
      = (.ok { r with status := "confirmed" }, setStatusInStore s rid "confirmed")
    ∧ findReservationById (setStatusInStore s rid "confirmed") rid
      = some { r with status := "confirmed" } := by
  constructor
  · simp [updateReservationStatus, validStatus, hr, hrole, hph, hown]
  · exact find_after_setStatus rid "confirmed" s.reservations r hr

/-- C4 witness: the owner of `demoPharmacy` confirms the cancelled
`demoRes2`. -/
theorem confirm_after_cancelled_succeeds_witness :
    updateReservationStatus pharmacyP 2 "confirmed" demoStore
      = (.ok { demoRes2 with status := "confirmed" },
         setStatusInStore demoStore 2 "confirmed")
    ∧ findReservationById (setStatusInStore demoStore 2 "confirmed") 2
      = some { demoRes2 with status := "confirmed" } :=
  confirm_after_cancelled_succeeds pharmacyP 2 demoStore demoPharmacy demoRes2
    rfl rfl rfl rfl rfl

/-- C5: an admin principal updates any existing reservation to any status
of the enum and deletes any existing reservation, with no ownership
hypothesis at all; both operations succeed, so neither ever yields a
Forbidden condition. -/
theorem admin_always_allowed (p : Principal) (rid : Nat) (st : String)
    (s : Store) (r : ReservationDoc)
    (hrole : p.role = "admin")
    (hst : validStatus st)
    (hr : findReservationById s rid = some r) :
    updateReservationStatus p rid st s
      = (.ok { r with status := st }, setStatusInStore s rid st)
    ∧ deleteReservation p rid s
      = (.ok "Reservation deleted successfully", removeReservation s rid) := by
  constructor
  · simp [updateReservationStatus, hst, hr, hrole]
  · simp [deleteReservation, hr, hrole]

/-- C5 witness: `adminP` owns nothing yet sets reservation 1 back to
"pending" and deletes it. -/
theorem admin_always_allowed_witness :
    updateReservationStatus adminP 1 "pending" demoStore
      = (.ok { demoRes with status := "pending" }, setStatusInStore demoStore 1 "pending")
    ∧ deleteReservation adminP 1 demoStore
      = (.ok "Reservation deleted successfully", removeReservation demoStore 1) :=
  admin_always_allowed adminP 1 "pending" demoStore demoRes rfl (Or.inl rfl) rfl

/-- C6 (amended): the update/delete permission check is structured as
special cases for the roles "consumer" and "pharmacy" with an
unconditional fall-through: a principal whose role is neither (admin, but
also any unrecognized role string) is permitted unconditionally — the
posture is allow-by-default over roles, not deny-by-default.  Within the
special-cased branches, a principal lacking the required ownership
relation is denied with Forbidden: a consumer who is not the requester; a
pharmacy principal who owns no pharmacy; and a pharmacy principal whose
owned pharmacy is not the reservation's servicing pharmacy. -/
theorem role_gating_fall_through (p : Principal) (rid : Nat) (st : String)
    (s : Store) (r : ReservationDoc)
    (hr : findReservationById s rid = some r) :
    (p.role ≠ "consumer" → p.role ≠ "pharmacy" → validStatus st →
      (updateReservationStatus p rid st s).1 = .ok { r with status := st }
      ∧ (deleteReservation p rid s).1 = .ok "Reservation deleted successfully")
    ∧ (p.role = "consumer" → r.user ≠ p.id → validStatus st →
      (updateReservationStatus p rid st s).1
        = .error (.forbidden "Not authorized to update this reservation")
      ∧ (deleteReservation p rid s).1
        = .error (.forbidden "Not authorized to delete this reservation"))
    ∧ (p.role = "pharmacy" → findPharmacyByUser s p.id = none → validStatus st →
      (updateReservationStatus p rid st s).1
        = .error (.forbidden "Not authorized to update this reservation")
      ∧ (deleteReservation p rid s).1
        = .error (.forbidden "Not authorized to delete this reservation"))
    ∧ (p.role = "pharmacy" → ∀ ph : PharmacyDoc,
        findPharmacyByUser s p.id = some ph → r.pharmacy ≠ ph.id →
        validStatus st →
      (updateReservationStatus p rid st s).1
        = .error (.forbidden "Not authorized to update this reservation")
      ∧ (deleteReservation p rid s).1
        = .error (.forbidden "Not authorized to delete this reservation")) := by
  refine ⟨fun h1 h2 hst => ?_, fun h1 hne hst => ?_, fun h1 hph hst => ?_,
    fun h1 ph hph hne hst => ?_⟩
  · constructor
    · simp [updateReservationStatus, hst, hr, h1, h2]
    · simp [deleteReservation, hr, h1, h2]
  · constructor
    · simp [updateReservationStatus, hst, hr, h1, hne]
    · simp [deleteReservation, hr, h1, hne]
  · constructor
    · simp [updateReservationStatus, hst, hr, h1, hph]
    · simp [deleteReservation, hr, h1, hph]
  · constructor
    · simp [updateReservationStatus, hst, hr, h1, hph, hne]
    · simp [deleteReservation, hr, h1, hph, hne]

/-- C6 witness: the fall-through branch at role "admin", the Forbidden
branch at a consumer who is not the requester, and the Forbidden branch
at a pharmacy principal whose owned pharmacy is not the servicing one. -/
theorem role_gating_fall_through_witness :
    ((updateReservationStatus adminP 2 "cancelled" demoStore).1
        = .ok { demoRes2 with status := "cancelled" }
      ∧ (deleteReservation adminP 2 demoStore).1
        = .ok "Reservation deleted successfully")
    ∧ ((updateReservationStatus consumer2P 1 "cancelled" demoStore).1
        = .error (.forbidden "Not authorized to update this reservation")
      ∧ (deleteReservation consumer2P 1 demoStore).1
        = .error (.forbidden "Not authorized to delete this reservation"))
    ∧ ((updateReservationStatus orphanP 1 "cancelled" demoStore2).1
        = .error (.forbidden "Not authorized to update this reservation")
      ∧ (deleteReservation orphanP 1 demoStore2).1
        = .error (.forbidden "Not authorized to delete this reservation")) :=
  ⟨(role_gating_fall_through adminP 2 "cancelled" demoStore demoRes2 rfl).1
      (by decide) (by decide) (Or.inr (Or.inr rfl)),
   (role_gating_fall_through consumer2P 1 "cancelled" demoStore demoRes rfl).2.1
      rfl (by decide) (Or.inr (Or.inr rfl)),
   (role_gating_fall_through orphanP 1 "cancelled" demoStore2 demoRes rfl).2.2.2
      rfl demoPharmacy2 rfl (by decide) (Or.inr (Or.inr rfl))⟩

/-- C6 counterexample: a principal with the unrecognized role "guest" who
is not the requester of reservation 1, and owns no pharmacy, is permitted
to both update and delete it — the action is not denied, refuting the
deny-by-default claim for roles outside {consumer, pharmacy, admin}. -/
theorem unknown_role_permitted :
    (updateReservationStatus guestP 1 "confirmed" demoStore).1
      = .ok { demoRes with status := "confirmed" }
    ∧ (deleteReservation guestP 1 demoStore).1
      = .ok "Reservation deleted successfully"
    ∧ guestP.role = "guest"
    ∧ demoRes.user ≠ guestP.id
    ∧ findPharmacyByUser demoStore guestP.id = none :=
  ⟨rfl, rfl, rfl, by decide, rfl⟩

/-- C7: a user who already owns a pharmacy cannot create a second one:
`createPharmacy` fails with the Conflict "User already has a pharmacy"
and the store is unchanged (no pharmacy record is created). -/
theorem createPharmacy_duplicate_user_conflict (p : Principal)
    (body : PharmacyBody) (s : Store) (nid : Nat) (ph : PharmacyDoc)
    (h : findPharmacyByUser s p.id = some ph) :
    createPharmacy p body s nid
      = (.error (.badRequest "User already has a pharmacy"), s)
    ∧ (ApiError.badRequest "User already has a pharmacy").isConflict = true := by
  refine ⟨?_, rfl⟩
  simp [createPharmacy, h]

/-- C7 witness: `pharmacyP` already owns `demoPharmacy`; a second creation
attempt is rejected with the store unchanged. -/
theorem createPharmacy_duplicate_user_conflict_witness :
    createPharmacy pharmacyP
      { name := "Duplicate", location := "Mombasa", license := "L-200",
        contact := "0711" } demoStore 50
      = (.error (.badRequest "User already has a pharmacy"), demoStore)
    ∧ (ApiError.badRequest "User already has a pharmacy").isConflict = true :=
  createPharmacy_duplicate_user_conflict pharmacyP
    { name := "Duplicate", location := "Mombasa", license := "L-200",
      contact := "0711" } demoStore 50 demoPharmacy rfl

/-- C8: for a reservation id with no document, both
`updateReservationStatus` (given a status that passes route validation)
and `deleteReservation` fail with NotFound for every principal whatsoever
— the existence check precedes every permission check, so nonexistence is
never reported as Forbidden. -/
theorem missing_reservation_not_found (p : Principal) (rid : Nat)
    (st : String) (s : Store)
    (hst : validStatus st)
    (h : findReservationById s rid = none) :
    updateReservationStatus p rid st s
      = (.error (.notFound "Reservation not found"), s)
    ∧ deleteReservation p rid s
      = (.error (.notFound "Reservation not found"), s)
    ∧ (ApiError.notFound "Reservation not found").isForbidden = false := by
  refine ⟨?_, ?_, rfl⟩
  · simp [updateReservationStatus, hst, h]
  · simp [deleteReservation, h]

/-- C8 witness: reservation id 999 does not exist in the demo store; a
consumer principal gets NotFound from both operations. -/
theorem missing_reservation_not_found_witness :
    updateReservationStatus consumerP 999 "cancelled" demoStore
      = (.error (.notFound "Reservation not found"), demoStore)
    ∧ deleteReservation consumerP 999 demoStore
      = (.error (.notFound "Reservation not found"), demoStore)
    ∧ (ApiError.notFound "Reservation not found").isForbidden = false :=
  missing_reservation_not_found consumerP 999 "cancelled" demoStore
    (Or.inr (Or.inr rfl)) rfl

/-- C10: a principal with role "pharmacy" who owns no pharmacy document is
rejected with Forbidden (the 403 not-authorized response, the same as the
not-owner case, not a NotFound) by both `updateReservationStatus` and
`deleteReservation` on any existing reservation, and the store is
unchanged. -/
theorem orphan_pharmacy_role_forbidden (p : Principal) (rid : Nat)
    (st : String) (s : Store) (r : ReservationDoc)
    (hrole : p.role = "pharmacy")
    (hnoph : findPharmacyByUser s p.id = none)
    (hr : findReservationById s rid = some r)
    (hst : validStatus st) :
    updateReservationStatus p rid st s
      = (.error (.forbidden "Not authorized to update this reservation"), s)
    ∧ deleteReservation p rid s
      = (.error (.forbidden "Not authorized to delete this reservation"), s) := by
  constructor
  · simp [updateReservationStatus, hst, hr, hrole, hnoph]
  · simp [deleteReservation, hr, hrole, hnoph]

/-- C10 witness: `orphanP` has role "pharmacy" but owns no pharmacy in the
demo store; both operations on reservation 1 are Forbidden. -/
theorem orphan_pharmacy_role_forbidden_witness :
    updateReservationStatus orphanP 1 "confirmed" demoStore
      = (.error (.forbidden "Not authorized to update this reservation"),
         demoStore)
    ∧ deleteReservation orphanP 1 demoStore
      = (.error (.forbidden "Not authorized to delete this reservation"),
         demoStore) :=
  orphan_pharmacy_role_forbidden orphanP 1 "confirmed" demoStore demoRes
    rfl rfl rfl (Or.inr (Or.inl rfl))

/-- C9: a successful `updateReservationStatus` modifies only the status
field of the targeted reservation: the medicine and pharmacy collections
are untouched (so no medicine's availability flag is ever flipped by a
status change), and every reservation document keeps its id, user,
medicine and pharmacy references, with the status preserved on every
document other than the targeted one. -/
theorem update_success_frame (p : Principal) (rid : Nat) (st : String)
    (s : Store) (r2 : ReservationDoc)
    (h : (updateReservationStatus p rid st s).1 = .ok r2) :
    ((updateReservationStatus p rid st s).2).medicines = s.medicines
    ∧ ((updateReservationStatus p rid st s).2).pharmacies = s.pharmacies
    ∧ List.Forall₂ (statusOnlyChange rid) s.reservations
        ((updateReservationStatus p rid st s).2).reservations := by
  rcases update_store_cases p rid st s with hs | hs <;> rw [hs]
  · exact ⟨rfl, rfl,
      forall2_refl_of _ (fun a => ⟨rfl, rfl, rfl, rfl, fun _ => rfl⟩)
        s.reservations⟩
  · refine ⟨rfl, rfl, ?_⟩
    refine forall2_map_self _ _ (fun a => ?_) s.reservations
    by_cases hc : (a.id == rid) = true
    · refine ⟨?_, ?_, ?_, ?_, fun hn => absurd (by simpa using hc) hn⟩ <;>
        simp [hc]
    · refine ⟨?_, ?_, ?_, ?_, fun _ => ?_⟩ <;> simp [hc]

/-- C9 witness: confirming `demoRes2` (a success path) leaves the medicine
and pharmacy collections untouched and every other reservation intact. -/
theorem update_success_frame_witness :
    ((updateReservationStatus pharmacyP 2 "confirmed" demoStore).2).medicines
      = demoStore.medicines
    ∧ ((updateReservationStatus pharmacyP 2 "confirmed" demoStore).2).pharmacies
      = demoStore.pharmacies
    ∧ List.Forall₂ (statusOnlyChange 2) demoStore.reservations
        ((updateReservationStatus pharmacyP 2 "confirmed" demoStore).2).reservations :=
  update_success_frame pharmacyP 2 "confirmed" demoStore
    { demoRes2 with status := "confirmed" } rfl
